import Mathlib

/-!
Verification development for the tennis repository.

The repository has two variants of the game:
  * a single-player 3D scene (src/src/main.ts, class TennisGame), embedded
    below in namespace `SP`;
  * a two-player networked 2.5D version (src/unnamed/part_000), embedded
    below in namespaces `NET` (world physics) and `CLIENT` (socket/WebRTC
    event handlers and the per-frame update).

JavaScript numbers are modelled as exact rationals.  Calls to Math.random
are modelled as explicit oracle arguments.  Decimal constants from the
source are written as rational literals (0.3 becomes 3/10, and so on).
-/

namespace Tennis

/-- Model of Math.sign on rationals. -/
def jsign (q : ℚ) : ℚ := if 0 < q then 1 else if q < 0 then -1 else 0

/-- clamp of a value into an interval, written the way the spec words it:
clamp(v, lo, hi). -/
def clampQ (lo hi v : ℚ) : ℚ := max lo (min hi v)

namespace SP

/-- State of the single-player TennisGame that the simulation core touches:
ball position (x, z), ball velocity (ballSpeed.x, ballSpeed.z), the lateral
coordinates of the two paddles, the AI smoothing accumulator, the two
scores, and the in-play flag.  The constant coordinates (ball y, paddle x
at -9 and 9) are not carried. -/
structure GState where
  ballX : ℚ
  ballZ : ℚ
  dx : ℚ
  dz : ℚ
  paddle1Z : ℚ
  paddle2Z : ℚ
  lastAiTarget : ℚ
  scorePlayer : ℕ
  scoreAi : ℕ
  ballInPlay : Bool
deriving DecidableEq

/-- this.paddleSpeed = 0.3 -/
def paddleSpeed : ℚ := 3/10

/-- const maxSpeed = 0.35 in updateBall -/
def maxSpeed : ℚ := 35/100

/-- const minSpeed = 0.15 in updateBall -/
def minSpeed : ℚ := 15/100

/-- const aiSpeed = 0.15 in updatePaddles -/
def aiSpeed : ℚ := 15/100

/-- const paddleHitbox = 0.8 in updateBall -/
def paddleHitbox : ℚ := 8/10

/-- resetBall(): ball placed at x = -8 in front of the player paddle at the
lateral coordinate of the player paddle, speeds zeroed, ball not in play. -/
def resetBall (s : GState) : GState :=
  { s with ballX := -8, ballZ := s.paddle1Z, dx := 0, dz := 0, ballInPlay := false }

/-- launchBall(): when the ball is not in play, serve it with
ballSpeed.x = 0.2 and ballSpeed.z = (random - 0.5) * 0.15.  `r` is the
Math.random draw. -/
def launchBall (r : ℚ) (s : GState) : GState :=
  if s.ballInPlay then s
  else { s with ballInPlay := true, dx := 2/10, dz := (r - 1/2) * (15/100) }

/-- The raw AI target computed in updatePaddles from the ball state, before
the exponential smoothing.  The AI paddle sits at x = 9 (never moved along
x by the code). -/
def aiTargetCalc (bz dz bx dx : ℚ) : ℚ :=
  if 0 < dx then max (-4) (min 4 (bz + dz * (|9 - bx| / dx)))
  else bz * (3/10)

/-- Modelled from the spec wording of the AI predictor claim:
clamp(ballLateral + transverseVelocity * (longitudinalDistance /
longitudinalSpeed), courtMin, courtMax) with courtMin = -4, courtMax = 4
and longitudinalDistance the absolute distance from the AI paddle (x = 9)
to the ball. -/
def aiPredictorSpec (bz dz bx dx : ℚ) : ℚ :=
  clampQ (-4) 4 (bz + dz * (|9 - bx| / dx))

/-- updatePaddles(): player paddle moves by paddleSpeed gated (not clamped)
at -4 and 4; a ball that is not in play is pinned to the player paddle; the
AI target is computed, smoothed with weights 0.8/0.2, and the AI paddle
moves at most aiSpeed toward it when the difference exceeds 0.1, then is
clamped to [-4, 4]; finally a held space bar serves the ball.  `ml`, `mr`,
`sp` are the sampled key states (left, right, space); `r` is the
Math.random draw consumed by launchBall. -/
def updatePaddles (ml mr sp : Bool) (r : ℚ) (s : GState) : GState :=
  let p1a := if ml = true ∧ -4 < s.paddle1Z then s.paddle1Z - paddleSpeed else s.paddle1Z
  let p1 := if mr = true ∧ p1a < 4 then p1a + paddleSpeed else p1a
  let bz := if s.ballInPlay then s.ballZ else p1
  let tgt := aiTargetCalc bz s.dz s.ballX s.dx
  let lt := s.lastAiTarget * (8/10) + tgt * (2/10)
  let td := lt - s.paddle2Z
  let p2a := if 1/10 < |td| then s.paddle2Z + jsign td * min |td| aiSpeed else s.paddle2Z
  let p2 := max (-4) (min 4 p2a)
  let s1 : GState :=
    { s with paddle1Z := p1, ballZ := bz, lastAiTarget := lt, paddle2Z := p2 }
  if sp = true ∧ s.ballInPlay = false then launchBall r s1 else s1

/-- The longitudinal speed normalization of updateBall: clamp the magnitude
of ballSpeed.x into [minSpeed, maxSpeed] through Math.sign. -/
def normX (d : ℚ) : ℚ :=
  if maxSpeed < |d| then jsign d * maxSpeed
  else if |d| < minSpeed then jsign d * minSpeed
  else d

/-- The transverse speed cap of updateBall: clamp the magnitude of
ballSpeed.z into [0, maxSpeed * 0.6] through Math.sign. -/
def normZ (d : ℚ) : ℚ :=
  if maxSpeed * (6/10) < |d| then jsign d * (maxSpeed * (6/10)) else d

/-- updateBall(): when the ball is in play, integrate the position, run the
two paddle hitbox tests, the wall bounce with damping 0.9 plus a random
perturbation (r - 0.5) * 0.05, the speed normalization, the transverse drag
0.98, and finally the two scoring tests which increment a score and reset
the ball.  `r` is the Math.random draw of the wall bounce. -/
def updateBall (r : ℚ) (s : GState) : GState :=
  if s.ballInPlay = false then s else
  let x := s.ballX + s.dx
  let z := s.ballZ + s.dz
  let dx1 := if x ≤ -(88/10) ∧ -(92/10) ≤ x ∧ |z - s.paddle1Z| < paddleHitbox
             then |s.dx| * (103/100) else s.dx
  let dz1 := if x ≤ -(88/10) ∧ -(92/10) ≤ x ∧ |z - s.paddle1Z| < paddleHitbox
             then ((z - s.paddle1Z) / paddleHitbox) * (3/10) else s.dz
  let dx2 := if 88/10 ≤ x ∧ x ≤ 92/10 ∧ |z - s.paddle2Z| < paddleHitbox
             then -(|dx1| * (103/100)) else dx1
  let dz2 := if 88/10 ≤ x ∧ x ≤ 92/10 ∧ |z - s.paddle2Z| < paddleHitbox
             then ((z - s.paddle2Z) / paddleHitbox) * (3/10) else dz1
  let dz3 := if 5 < z ∨ z < -5 then -dz2 * (9/10) + (r - 1/2) * (5/100) else dz2
  let dx3 := normX dx2
  let dz4 := normZ dz3
  let dz5 := dz4 * (98/100)
  if 10 < x then
    resetBall { s with scorePlayer := s.scorePlayer + 1 }
  else if x < -10 then
    resetBall { s with scoreAi := s.scoreAi + 1 }
  else
    { s with ballX := x, ballZ := z, dx := dx3, dz := dz5 }

end SP

namespace NET

/-- The networked ball object: position, velocity and the scalar reference
speed field used by resetBall. -/
structure Ball where
  x : ℚ
  y : ℚ
  dx : ℚ
  dy : ℚ
  speed : ℚ
deriving DecidableEq

/-- The networked physics world: ball, the two paddles (x, y, dy) and the
two scores.  Paddle x coordinates are carried because the collision tests
read them. -/
structure World where
  ball : Ball
  lpX : ℚ
  lpY : ℚ
  lpDy : ℚ
  rpX : ℚ
  rpY : ℚ
  rpDy : ℚ
  leftScore : ℕ
  rightScore : ℕ
deriving DecidableEq

/-- const paddleHeight = 100 -/
def paddleHeight : ℚ := 100

/-- const paddleWidth = 15 -/
def paddleWidth : ℚ := 15

/-- const ballSize = 15 -/
def ballSize : ℚ := 15

/-- movePaddles(): integrate each paddle by its dy, then clamp into
[0, canvas.height - paddleHeight].  `ch` is canvas.height.  (The paddle
position broadcast that follows in the source is modelled at the client
layer.) -/
def movePaddles (ch : ℚ) (w : World) : World :=
  let ly0 := w.lpY + w.lpDy
  let ly1 := if ly0 < 0 then 0 else ly0
  let ly := if ch - paddleHeight < ly1 then ch - paddleHeight else ly1
  let ry0 := w.rpY + w.rpDy
  let ry1 := if ry0 < 0 then 0 else ry0
  let ry := if ch - paddleHeight < ry1 then ch - paddleHeight else ry1
  { w with lpY := ly, rpY := ry }

/-- moveBall(): integrate the ball position by its velocity. -/
def moveBall (w : World) : World :=
  { w with ball := { w.ball with x := w.ball.x + w.ball.dx, y := w.ball.y + w.ball.dy } }

/-- resetBall(direction): recenter the ball and relaunch it immediately at
dx = speed * direction, dy = speed * (random sign).  `rdy` is the
Math.random draw for the dy sign; `cw`, `ch` are the canvas dimensions. -/
def resetBall (dir : ℚ) (rdy : Bool) (cw ch : ℚ) (w : World) : World :=
  { w with ball := { w.ball with
      x := cw/2, y := ch/2,
      dx := w.ball.speed * dir,
      dy := w.ball.speed * (if rdy then 1 else -1) } }

/-- checkCollisions(): wall bounce (plain sign flip of dy), the two paddle
tests (each requires the ball to be moving toward that paddle, flips dx,
sets dy from the hit offset and multiplies dx by 1.05 while its magnitude
is below 15), then the two scoring tests which increment a score and call
resetBall.  `cw`, `ch` are the canvas dimensions, `rdy` the Math.random
draw consumed by resetBall. -/
def checkCollisions (cw ch : ℚ) (rdy : Bool) (w : World) : World :=
  let b := w.ball
  let dy1 := if b.y ≤ 0 ∨ ch ≤ b.y + ballSize then -b.dy else b.dy
  let hitL : Prop :=
    b.x ≤ w.lpX + paddleWidth ∧ w.lpY ≤ b.y + ballSize ∧ b.y ≤ w.lpY + paddleHeight ∧ b.dx < 0
  let dxL := if hitL then (if |(-b.dx)| < 15 then -b.dx * (105/100) else -b.dx) else b.dx
  let dyL := if hitL then 10 * ((b.y - w.lpY) / paddleHeight - 1/2) else dy1
  let hitR : Prop :=
    w.rpX ≤ b.x + ballSize ∧ w.rpY ≤ b.y + ballSize ∧ b.y ≤ w.rpY + paddleHeight ∧ 0 < dxL
  let dxR := if hitR then (if |(-dxL)| < 15 then -dxL * (105/100) else -dxL) else dxL
  let dyR := if hitR then 10 * ((b.y - w.rpY) / paddleHeight - 1/2) else dyL
  let w1 : World := { w with ball := { b with dx := dxR, dy := dyR } }
  if b.x < 0 then
    resetBall 1 rdy cw ch { w1 with rightScore := w1.rightScore + 1 }
  else if cw < b.x then
    resetBall (-1) rdy cw ch { w1 with leftScore := w1.leftScore + 1 }
  else
    w1

/-- resetGameState() of startGame: paddles back to their spawn points and
the ball recentered with random velocity signs at speed 5; scores zeroed.
`rdx`, `rdy` are the two Math.random draws. -/
def resetGameState (rdx rdy : Bool) (w : World) : World :=
  { w with
    lpX := 50, lpY := 250, lpDy := 0,
    rpX := 735, rpY := 250, rpDy := 0,
    ball := { x := 400, y := 300,
              dx := 5 * (if rdx then 1 else -1),
              dy := 5 * (if rdy then 1 else -1),
              speed := 5 },
    leftScore := 0, rightScore := 0 }

end NET

namespace CLIENT

/-- The two transports: the direct peer channel and the relayed socket. -/
inductive Channel
  | webrtc
  | socket
deriving DecidableEq

/-- The message kinds exchanged by the networked clients.  `ctrl` stands
for the remaining control emissions (playerReady, restartGame, ...) whose
payload the core does not inspect. -/
inductive Msg
  | paddleMove (left : Bool) (pos : ℚ)
  | ballUpdate (b : NET.Ball) (ls rs : ℕ)
  | requestBallUpdate
  | gameOver
  | ctrl (tag : String)
deriving DecidableEq

/-- The screens of the networked client UI. -/
inductive Screen
  | menu
  | room
  | waiting
  | game
  | over
deriving DecidableEq

/-- The module-level state of the networked client: role and session flags,
transport flags, the peer object (modelled by existence and connected
flags), the displayed screen and winner text, the ready flags, the room
code, and the physics world. -/
structure Client where
  isHost : Bool
  gameActive : Bool
  useWebRTC : Bool
  peerConnected : Bool
  peerExists : Bool
  screen : Screen
  winner : String
  playerReady : Bool
  opponentReady : Bool
  roomCode : Option String
  world : NET.World
deriving DecidableEq

/-- let winningScore = 10 -/
def winningScore : ℕ := 10

/-- sendWebRTCMessage(): emits on the direct channel only when the peer
object exists and is connected; otherwise nothing is sent. -/
def sendRTC (s : Client) (m : Msg) : List (Channel × Msg) :=
  if s.peerExists = true ∧ s.peerConnected = true then [(Channel.webrtc, m)] else []

/-- The send pattern `if (useWebRTC && peerConnected) sendWebRTCMessage(..)
else socket.emit(..)` that every periodic broadcast site uses. -/
def viaPreferred (s : Client) (m : Msg) : List (Channel × Msg) :=
  if s.useWebRTC = true ∧ s.peerConnected = true then sendRTC s m
  else [(Channel.socket, m)]

/-- endGame(message?): deactivate the game, display either the given
message or the score-based winner, show the game-over screen, and notify
the other player. -/
def endGame (msg : Option String) (s : Client) : Client × List (Channel × Msg) :=
  let s1 : Client :=
    { s with gameActive := false, screen := Screen.over,
             winner := match msg with
               | some m => m
               | none =>
                   if s.world.rightScore < s.world.leftScore then "PLAYER 1 WINS!"
                   else "PLAYER 2 WINS!" }
  (s1, viaPreferred s1 Msg.gameOver)

/-- The `if (peer) { peer.destroy(); peer = null; peerConnected = false }`
cleanup block. -/
def cleanupPeer (s : Client) : Client :=
  if s.peerExists = true then { s with peerExists := false, peerConnected := false } else s

/-- backToMenu(): show the menu, clear the session data, reset the game and
release the peer. -/
def backToMenu (s : Client) : Client :=
  cleanupPeer
    { s with screen := Screen.menu, roomCode := none, isHost := false,
             playerReady := false, opponentReady := false,
             world := { s.world with leftScore := 0, rightScore := 0 },
             gameActive := false }

/-- startGame(): show the game screen, activate the game, reset the world,
and have the non-host request the initial ball state over the preferred
transport. -/
def startGame (rdx rdy : Bool) (s : Client) : Client × List (Channel × Msg) :=
  let s1 : Client :=
    { s with screen := Screen.game, gameActive := true,
             world := NET.resetGameState rdx rdy s.world }
  if s1.isHost = true then (s1, [])
  else (s1, viaPreferred s1 Msg.requestBallUpdate)

/-- handleWebRTCMessage(): dispatch of a message received on the direct
channel.  Remote paddle positions are applied verbatim; ball state is
applied verbatim only by the non-host; a ball-state request is answered by
the active host over the direct channel; gameOver deactivates; anything
else is dropped. -/
def handleWebRTCMessage (m : Msg) (s : Client) : Client × List (Channel × Msg) :=
  match m with
  | Msg.paddleMove left pos =>
      (if left then { s with world := { s.world with lpY := pos } }
       else { s with world := { s.world with rpY := pos } }, [])
  | Msg.ballUpdate b ls rs =>
      if s.isHost = false then
        ({ s with world := { s.world with ball := b, leftScore := ls, rightScore := rs } }, [])
      else (s, [])
  | Msg.requestBallUpdate =>
      if s.isHost = true ∧ s.gameActive = true then
        (s, sendRTC s (Msg.ballUpdate s.world.ball s.world.leftScore s.world.rightScore))
      else (s, [])
  | Msg.gameOver => ({ s with gameActive := false }, [])
  | Msg.ctrl _ => (s, [])

/-- update() of the game loop (guarded by gameActive in gameLoop): move the
paddles and broadcast the own paddle, then on the host move the ball, check
collisions and broadcast the ball state, then check the win condition. -/
def frameUpdate (cw ch : ℚ) (rdir : Bool) (s : Client) : Client × List (Channel × Msg) :=
  if s.gameActive = false then (s, []) else
  let w1 := NET.movePaddles ch s.world
  let out1 := viaPreferred s
    (if s.isHost = true then Msg.paddleMove true w1.lpY else Msg.paddleMove false w1.rpY)
  let w2 := if s.isHost = true then NET.checkCollisions cw ch rdir (NET.moveBall w1) else w1
  let out2 :=
    if s.isHost = true then viaPreferred s (Msg.ballUpdate w2.ball w2.leftScore w2.rightScore)
    else []
  let s1 : Client := { s with world := w2 }
  if winningScore ≤ w2.leftScore ∨ winningScore ≤ w2.rightScore then
    ((endGame none s1).1, out1 ++ out2 ++ (endGame none s1).2)
  else (s1, out1 ++ out2)

/-- The events that drive the networked client: the socket handlers of
setupSocketHandlers, the peer callbacks installed on the SimplePeer object,
the keyboard handlers, the per-frame callback and the user button actions.
Boolean arguments model Math.random draws and environment outcomes (rtcOk
is whether constructing the SimplePeer object succeeds, thr is whether
peer.signal throws). -/
inductive Event
  | gameCreated (code : String)
  | gameJoined (code : String) (rtcOk : Bool)
  | joinError
  | playerJoined (rtcOk : Bool)
  | webrtcSignal (thr : Bool)
  | playerLeft
  | gameStartRecv (rdx rdy : Bool)
  | opponentPaddleMove (left : Bool) (pos : ℚ)
  | ballUpdateSocket (b : NET.Ball) (ls rs : ℕ)
  | sendBallUpdateReq
  | gameEnded
  | gameRestarted
  | peerConnect
  | peerData (m : Msg)
  | peerError
  | peerClose
  | frame (rdir : Bool)
  | keyDown (up : Bool)
  | keyUp (up : Bool)
  | clickBackToMenu
  | clickRestart
  | clickReady
deriving DecidableEq

/-- handleKeyDown(): the host drives the left paddle, the guest the right
paddle; paddle speed is 8. -/
def handleKeyDown (up : Bool) (s : Client) : Client :=
  if s.gameActive = false then s else
  if s.isHost = true then
    { s with world := { s.world with lpDy := if up then -8 else 8 } }
  else
    { s with world := { s.world with rpDy := if up then -8 else 8 } }

/-- handleKeyUp(): stop the own paddle when the released key matches the
current movement direction. -/
def handleKeyUp (up : Bool) (s : Client) : Client :=
  if s.gameActive = false then s else
  if s.isHost = true then
    (if up ∧ s.world.lpDy < 0 then { s with world := { s.world with lpDy := 0 } }
     else if up = false ∧ 0 < s.world.lpDy then { s with world := { s.world with lpDy := 0 } }
     else s)
  else
    (if up ∧ s.world.rpDy < 0 then { s with world := { s.world with rpDy := 0 } }
     else if up = false ∧ 0 < s.world.rpDy then { s with world := { s.world with rpDy := 0 } }
     else s)

/-- The event step of the networked client: one handler invocation, giving
the next client state and the list of emitted messages tagged with the
channel each one left on. -/
def step (cw ch : ℚ) (e : Event) (s : Client) : Client × List (Channel × Msg) :=
  match e with
  | Event.gameCreated c =>
      ({ s with roomCode := some c, screen := Screen.room, isHost := true }, [])
  | Event.gameJoined c rtcOk =>
      let s1 : Client := { s with roomCode := some c, screen := Screen.waiting }
      if s1.useWebRTC = true ∧ s1.isHost = false then
        (if rtcOk then { s1 with peerExists := true } else { s1 with useWebRTC := false }, [])
      else (s1, [])
  | Event.joinError => (s, [])
  | Event.playerJoined rtcOk =>
      if s.isHost = true then
        let s1 : Client := { s with screen := Screen.waiting }
        if s1.useWebRTC = true then
          (if rtcOk then { s1 with peerExists := true } else { s1 with useWebRTC := false }, [])
        else (s1, [])
      else (s, [])
  | Event.webrtcSignal thr =>
      if s.peerExists = true ∧ s.useWebRTC = true then
        (if thr then { s with useWebRTC := false } else s, [])
      else (s, [])
  | Event.playerLeft =>
      if s.gameActive = true then
        (cleanupPeer (endGame (some "Opponent left the game") s).1,
         (endGame (some "Opponent left the game") s).2)
      else (backToMenu s, [])
  | Event.gameStartRecv rdx rdy =>
      let s1 := (startGame rdx rdy s).1
      if s1.isHost = true then
        (s1, (startGame rdx rdy s).2 ++ viaPreferred s1 (Msg.ballUpdate s1.world.ball 0 0))
      else (s1, (startGame rdx rdy s).2)
  | Event.opponentPaddleMove left pos =>
      if (s.useWebRTC = true ∧ s.peerConnected = true) then (s, [])
      else
        (if left then { s with world := { s.world with lpY := pos } }
         else { s with world := { s.world with rpY := pos } }, [])
  | Event.ballUpdateSocket b ls rs =>
      if (s.useWebRTC = true ∧ s.peerConnected = true) then (s, [])
      else if s.isHost = false then
        ({ s with world := { s.world with ball := b, leftScore := ls, rightScore := rs } }, [])
      else (s, [])
  | Event.sendBallUpdateReq =>
      if (s.useWebRTC = true ∧ s.peerConnected = true) then (s, [])
      else if s.isHost = true ∧ s.gameActive = true then
        (s, [(Channel.socket, Msg.ballUpdate s.world.ball s.world.leftScore s.world.rightScore)])
      else (s, [])
  | Event.gameEnded => ({ s with gameActive := false }, [])
  | Event.gameRestarted =>
      ({ s with world := { s.world with leftScore := 0, rightScore := 0 },
                gameActive := false, screen := Screen.waiting,
                playerReady := false, opponentReady := false }, [])
  | Event.peerConnect =>
      let s1 : Client := { s with peerConnected := true }
      if s1.isHost = false ∧ s1.gameActive = true then (s1, sendRTC s1 Msg.requestBallUpdate)
      else (s1, [])
  | Event.peerData m => handleWebRTCMessage m s
  | Event.peerError => ({ s with useWebRTC := false, peerConnected := false }, [])
  | Event.peerClose => ({ s with useWebRTC := false, peerConnected := false }, [])
  | Event.frame rdir => frameUpdate cw ch rdir s
  | Event.keyDown up => (handleKeyDown up s, [])
  | Event.keyUp up => (handleKeyUp up s, [])
  | Event.clickBackToMenu => (backToMenu s, [])
  | Event.clickRestart => (s, [(Channel.socket, Msg.ctrl "restartGame")])
  | Event.clickReady =>
      ({ s with playerReady := true }, [(Channel.socket, Msg.ctrl "playerReady")])

end CLIENT

/-! Concrete states used by counterexamples and witnesses. -/

/-- Single-player state with the player paddle at 3.9, inside the court. -/
def c1s : SP.GState :=
  { ballX := 0, ballZ := 0, dx := 0, dz := 0, paddle1Z := 39/10, paddle2Z := 0,
    lastAiTarget := 0, scorePlayer := 0, scoreAi := 0, ballInPlay := true }

/-- Single-player state with the ball inside the player hitbox band after
integration but moving away from the player paddle (dx positive). -/
def c4s : SP.GState :=
  { ballX := -(92/10), ballZ := 0, dx := 2/10, dz := 0, paddle1Z := 0, paddle2Z := 0,
    lastAiTarget := 0, scorePlayer := 0, scoreAi := 0, ballInPlay := true }

/-- A generic in-play single-player state inside all bounds. -/
def spw : SP.GState :=
  { ballX := 0, ballZ := 0, dx := 1/5, dz := 0, paddle1Z := 1, paddle2Z := 0,
    lastAiTarget := 0, scorePlayer := 0, scoreAi := 0, ballInPlay := true }

/-- A serve-pending single-player state. -/
def sps : SP.GState :=
  { ballX := -8, ballZ := 2, dx := 0, dz := 0, paddle1Z := 2, paddle2Z := 0,
    lastAiTarget := 0, scorePlayer := 0, scoreAi := 0, ballInPlay := false }

/-- Single-player state one tick before a clean hit on the player paddle
(ball moving toward the paddle). -/
def c4wSP : SP.GState :=
  { ballX := -9, ballZ := 0, dx := -(1/5), dz := 0, paddle1Z := 0, paddle2Z := 0,
    lastAiTarget := 0, scorePlayer := 0, scoreAi := 0, ballInPlay := true }

/-- Networked world with the ball overlapping the left paddle and moving
toward it. -/
def c4wN : NET.World :=
  { ball := { x := 60, y := 260, dx := -5, dy := 0, speed := 5 },
    lpX := 50, lpY := 250, lpDy := 0, rpX := 735, rpY := 250, rpDy := 0,
    leftScore := 0, rightScore := 0 }

/-- Single-player state one tick before a wall contact, away from both
paddles. -/
def c5wSP : SP.GState :=
  { ballX := 0, ballZ := 5, dx := 1/5, dz := 1/10, paddle1Z := 0, paddle2Z := 0,
    lastAiTarget := 0, scorePlayer := 0, scoreAi := 0, ballInPlay := true }

/-- The networked world right after resetGameState (positive random signs). -/
def netw : NET.World :=
  { ball := { x := 400, y := 300, dx := 5, dy := 5, speed := 5 },
    lpX := 50, lpY := 250, lpDy := 0, rpX := 735, rpY := 250, rpDy := 0,
    leftScore := 0, rightScore := 0 }

/-- Networked world with the ball just past the left boundary. -/
def c3w : NET.World :=
  { ball := { x := -1, y := 100, dx := -5, dy := 2, speed := 5 },
    lpX := 50, lpY := 250, lpDy := 0, rpX := 735, rpY := 250, rpDy := 0,
    leftScore := 0, rightScore := 0 }

/-- Networked world with the ball on the top wall, away from both paddles. -/
def c5w : NET.World :=
  { ball := { x := 400, y := 0, dx := 3, dy := -5, speed := 5 },
    lpX := 50, lpY := 250, lpDy := 0, rpX := 735, rpY := 250, rpDy := 0,
    leftScore := 0, rightScore := 0 }

/-- A guest (non-host) client in an active game with the direct channel
connected. -/
def c7c : CLIENT.Client :=
  { isHost := false, gameActive := true, useWebRTC := true, peerConnected := true,
    peerExists := true, screen := CLIENT.Screen.game, winner := "",
    playerReady := true, opponentReady := true, roomCode := some "ROOM", world := netw }

/-- The ball payload of an incoming ball-state message, different from the
local ball of `c7c`. -/
def b7 : NET.Ball := { x := 123, y := 77, dx := -6, dy := 1, speed := 5 }

/-- A host client after the fallback flag was cleared by a signaling error
while the peer link itself is connected. -/
def c8c : CLIENT.Client :=
  { isHost := true, gameActive := true, useWebRTC := false, peerConnected := true,
    peerExists := true, screen := CLIENT.Screen.game, winner := "",
    playerReady := true, opponentReady := true, roomCode := some "ROOM", world := netw }

/-- A host client in an active game that has fallen back to the relayed
channel entirely (flag cleared and peer not connected). -/
def c8w : CLIENT.Client :=
  { isHost := true, gameActive := true, useWebRTC := false, peerConnected := false,
    peerExists := true, screen := CLIENT.Screen.game, winner := "",
    playerReady := true, opponentReady := true, roomCode := some "ROOM", world := netw }

/-! Helper lemmas shared by several claim theorems. -/

/-- Math.sign of a nonzero value times a nonnegative constant has the
magnitude of the constant. -/
theorem abs_jsign_mul (d c : ℚ) (hd : d ≠ 0) (hc : 0 ≤ c) : |jsign d * c| = c := by
  unfold jsign
  rcases lt_trichotomy 0 d with h | h | h
  · rw [if_pos h]; simpa using abs_of_nonneg hc
  · exact absurd h.symm hd
  · rw [if_neg (by linarith), if_pos h]
    rw [neg_one_mul, abs_neg]
    exact abs_of_nonneg hc

/-- The longitudinal normalization clamps a nonzero speed into
[minSpeed, maxSpeed]. -/
theorem normX_bounds (d : ℚ) (hd : d ≠ 0) :
    15/100 ≤ |SP.normX d| ∧ |SP.normX d| ≤ 35/100 := by
  unfold SP.normX SP.maxSpeed SP.minSpeed
  split_ifs with hA hB
  · rw [abs_jsign_mul d _ hd (by norm_num)]; norm_num
  · rw [abs_jsign_mul d _ hd (by norm_num)]; norm_num
  · exact ⟨not_lt.mp hB, not_lt.mp hA⟩

/-- The transverse cap bounds the magnitude by 0.21. -/
theorem normZ_abs_le (d : ℚ) : |SP.normZ d| ≤ 21/100 := by
  unfold SP.normZ SP.maxSpeed
  split_ifs with hA
  · have hd : d ≠ 0 := by
      intro h0
      rw [h0] at hA
      norm_num at hA
    rw [abs_jsign_mul d _ hd (by norm_num)]; norm_num
  · have := not_lt.mp hA
    linarith

/-- The transverse cap followed by the 0.98 drag keeps the magnitude
within 0.21. -/
theorem normZ_drag_le (d : ℚ) : |SP.normZ d * (98/100)| ≤ 21/100 := by
  rw [abs_mul, abs_of_nonneg (by norm_num : (0:ℚ) ≤ 98/100)]
  have := normZ_abs_le d
  nlinarith

/-- The restitution step of a paddle hit keeps the speed nonzero. -/
theorem scaled_abs_ne_zero (d : ℚ) (hd : d ≠ 0) : |d| * (103/100) ≠ 0 :=
  mul_ne_zero (abs_ne_zero.mpr hd) (by norm_num)

/-- The longitudinal normalization of a speed already at least minSpeed is
a plain cap at maxSpeed. -/
theorem normX_of_pos (d : ℚ) (hd : 15/100 ≤ d) : SP.normX d = min d (35/100) := by
  unfold SP.normX SP.maxSpeed SP.minSpeed jsign
  have h0 : (0:ℚ) < d := by linarith
  rw [abs_of_pos h0]
  split_ifs with hA hB <;> first
    | (exfalso; linarith)
    | (rw [min_eq_right (by linarith)]; ring)
    | (rw [min_eq_left (by linarith)])

/-- A networked tick in which the ball touches nothing leaves the world
unchanged. -/
theorem checkCollisions_away (cw ch : ℚ) (rdy : Bool) (w : NET.World)
    (n1 : 0 < w.ball.y) (n2 : w.ball.y + 15 < ch)
    (n3 : w.lpX + 15 < w.ball.x) (n4 : w.ball.x + 15 < w.rpX)
    (n5 : 0 ≤ w.ball.x) (n6 : w.ball.x ≤ cw) :
    NET.checkCollisions cw ch rdy w = w := by
  simp only [NET.checkCollisions, NET.ballSize, NET.paddleWidth, NET.paddleHeight,
    NET.resetBall]
  split_ifs <;> first
    | rfl
    | (exfalso; linarith)
    | (exfalso;
       rcases (by assumption : w.ball.y ≤ 0 ∨ ch ≤ w.ball.y + 15) with hy | hy <;> linarith)

/-- A networked tick in which the ball only touches a wall flips the sign
of the transverse velocity and changes nothing else. -/
theorem checkCollisions_wall_only (cw ch : ℚ) (rdy : Bool) (w : NET.World)
    (hw : w.ball.y ≤ 0 ∨ ch ≤ w.ball.y + 15)
    (n3 : w.lpX + 15 < w.ball.x) (n4 : w.ball.x + 15 < w.rpX)
    (n5 : 0 ≤ w.ball.x) (n6 : w.ball.x ≤ cw) :
    NET.checkCollisions cw ch rdy w = { w with ball := { w.ball with dy := -w.ball.dy } } := by
  simp only [NET.checkCollisions, NET.ballSize, NET.paddleWidth, NET.paddleHeight,
    NET.resetBall]
  split_ifs <;> first
    | rfl
    | (exfalso; linarith)

/-! Theorems. -/

/-- C1, counterexample: the claim fails for the player paddle.  From the
in-bounds position 3.9 a held right key moves the player paddle to 4.2,
outside the court bound 4, because the player paddle movement is gated
before the move but never clamped after it. -/
theorem C1_player_paddle_escape :
    (SP.updatePaddles false true false 0 c1s).paddle1Z = 21/5 ∧ ¬ ((21/5 : ℚ) ≤ 4) := by
  constructor
  · norm_num [SP.updatePaddles, SP.paddleSpeed, SP.launchBall, SP.aiTargetCalc,
      SP.aiSpeed, Tennis.jsign, c1s]
  · norm_num

/-- C1, amended: after a paddle update the AI paddle and both networked
paddles are clamped into their court bounds ([-4, 4], respectively
[0, canvasHeight - paddleHeight]); the player paddle is only gated before
its move, so from a position inside [-4, 4] it can end up to one step
outside, landing anywhere in the open interval (-4.3, 4.3). -/
theorem C1_paddle_bounds (ml mr sp : Bool) (r ch : ℚ) (s : SP.GState) (w : NET.World)
    (h1 : -4 ≤ s.paddle1Z) (h2 : s.paddle1Z ≤ 4) (h3 : (100:ℚ) ≤ ch) :
    (-4 ≤ (SP.updatePaddles ml mr sp r s).paddle2Z
        ∧ (SP.updatePaddles ml mr sp r s).paddle2Z ≤ 4)
    ∧ (-(43/10) < (SP.updatePaddles ml mr sp r s).paddle1Z
        ∧ (SP.updatePaddles ml mr sp r s).paddle1Z < 43/10)
    ∧ (0 ≤ (NET.movePaddles ch w).lpY ∧ (NET.movePaddles ch w).lpY ≤ ch - 100)
    ∧ (0 ≤ (NET.movePaddles ch w).rpY ∧ (NET.movePaddles ch w).rpY ≤ ch - 100) := by
  refine ⟨?_, ?_, ?_, ?_⟩
  · simp only [SP.updatePaddles, SP.launchBall]
    split_ifs <;>
      exact ⟨le_max_left _ _, max_le (by norm_num) (min_le_left _ _)⟩
  · simp only [SP.updatePaddles, SP.launchBall, SP.paddleSpeed]
    split_ifs <;> simp_all <;> constructor <;> linarith
  · simp only [NET.movePaddles, NET.paddleHeight]
    split_ifs <;> constructor <;> linarith
  · simp only [NET.movePaddles, NET.paddleHeight]
    split_ifs <;> constructor <;> linarith

/-- C1, witness for the amended theorem at a concrete state. -/
theorem C1_paddle_bounds_witness :
    -4 ≤ (SP.updatePaddles true true false 0 spw).paddle2Z
    ∧ 0 ≤ (NET.movePaddles 600 netw).lpY := by
  have h := C1_paddle_bounds true true false 0 600 spw netw
    (by norm_num [spw]) (by norm_num [spw]) (by norm_num)
  exact ⟨h.1.1, h.2.2.1.1⟩

/-- C2, counterexample: the networked simulation step has no speed
normalization at all.  No interval [lo, hi] bounds the post-update
longitudinal speed magnitude over all in-play states, because a ball away
from every paddle, wall and boundary keeps whatever longitudinal speed it
had. -/
theorem C2_no_net_normalization :
    ¬ ∃ lo hi : ℚ, ∀ (w : NET.World) (rdy : Bool),
        lo ≤ |(NET.checkCollisions 800 600 rdy w).ball.dx|
        ∧ |(NET.checkCollisions 800 600 rdy w).ball.dx| ≤ hi := by
  rintro ⟨lo, hi, h⟩
  have h1 := (h { netw with ball := { netw.ball with dx := |hi| + 1 } } true).2
  rw [checkCollisions_away 800 600 true _ (by norm_num [netw]) (by norm_num [netw])
    (by norm_num [netw]) (by norm_num [netw]) (by norm_num [netw]) (by norm_num [netw])] at h1
  have h2 : |({ netw with ball := { netw.ball with dx := |hi| + 1 } } : NET.World).ball.dx|
      = |hi| + 1 := by
    have : (0:ℚ) ≤ |hi| + 1 := by positivity
    simpa [netw] using abs_of_nonneg this
  rw [h2] at h1
  have := le_abs_self hi
  linarith

/-- C2, amended: the speed bounds hold in the single-player step (a tick of
an in-play ball with nonzero longitudinal speed that ends still in play
leaves the longitudinal speed magnitude in [0.15, 0.35] and the transverse
magnitude at most 0.21); the networked step applies no normalization: away
from every collision and boundary it leaves the ball velocity unchanged. -/
theorem C2_speed_bounds (r cw ch : ℚ) (rdy : Bool) (s : SP.GState) (w : NET.World)
    (h1 : s.ballInPlay = true) (h2 : s.dx ≠ 0)
    (n1 : 0 < w.ball.y) (n2 : w.ball.y + 15 < ch)
    (n3 : w.lpX + 15 < w.ball.x) (n4 : w.ball.x + 15 < w.rpX)
    (n5 : 0 ≤ w.ball.x) (n6 : w.ball.x ≤ cw) :
    ((SP.updateBall r s).ballInPlay = true →
        15/100 ≤ |(SP.updateBall r s).dx| ∧ |(SP.updateBall r s).dx| ≤ 35/100
        ∧ |(SP.updateBall r s).dz| ≤ 21/100)
    ∧ (NET.checkCollisions cw ch rdy w).ball.dx = w.ball.dx
    ∧ (NET.checkCollisions cw ch rdy w).ball.dy = w.ball.dy := by
  refine ⟨?_, ?_, ?_⟩
  · intro hp
    simp only [SP.updateBall] at hp ⊢
    rw [if_neg (by simp [h1])] at hp ⊢
    split_ifs at hp ⊢ with hs1 hs2 hai hpl hwl <;> first
      | (refine absurd hp ?_; simp [SP.resetBall]; done)
      | (exfalso; linarith [hai.1, hpl.1])
      | (refine ⟨(normX_bounds _ ?_).1, (normX_bounds _ ?_).2, normZ_drag_le _⟩ <;>
          first
          | exact h2
          | exact scaled_abs_ne_zero _ h2
          | exact neg_ne_zero.mpr (scaled_abs_ne_zero _ h2))
  · rw [checkCollisions_away cw ch rdy w n1 n2 n3 n4 n5 n6]
  · rw [checkCollisions_away cw ch rdy w n1 n2 n3 n4 n5 n6]

/-- C2, witness for the amended theorem at a concrete state. -/
theorem C2_speed_bounds_witness :
    (15/100 ≤ |(SP.updateBall 0 spw).dx| ∧ |(SP.updateBall 0 spw).dx| ≤ 35/100)
    ∧ (NET.checkCollisions 800 600 true netw).ball.dx = netw.ball.dx := by
  have h := C2_speed_bounds 0 800 600 true spw netw rfl (by norm_num [spw])
    (by norm_num [netw]) (by norm_num [netw]) (by norm_num [netw]) (by norm_num [netw])
    (by norm_num [netw]) (by norm_num [netw])
  have hp : (SP.updateBall 0 spw).ballInPlay = true := by
    norm_num [SP.updateBall, spw]
  exact ⟨⟨(h.1 hp).1, (h.1 hp).2.1⟩, h.2.1⟩

/-- C3, counterexample: in the networked variant a point does not reset the
ball to a serve-pending state with zero velocity.  With the ball just past
the left boundary, the right score increments but the ball relaunches
immediately from the center with longitudinal speed 5. -/
theorem C3_net_relaunch_not_zero :
    (NET.checkCollisions 800 600 true c3w).ball.dx = 5
    ∧ (5:ℚ) ≠ 0
    ∧ (NET.checkCollisions 800 600 true c3w).rightScore = 1 := by
  refine ⟨?_, by norm_num, ?_⟩ <;>
    norm_num [NET.checkCollisions, NET.resetBall, NET.ballSize, NET.paddleWidth,
      NET.paddleHeight, c3w]

/-- C3, amended: crossing a far boundary increments the opposing score by
exactly 1 in both variants, but only the single-player variant resets the
ball to serve-pending with zero velocity; the networked variant recenters
the ball and relaunches it immediately with longitudinal speed ball.speed
directed toward the side that just scored (a left exit gives dx = +speed
toward the right paddle, a right exit gives dx = -speed) and transverse
speed of magnitude ball.speed. -/
theorem C3_scoring (r cw ch : ℚ) (rdy : Bool) (s : SP.GState) (w : NET.World)
    (hcw : 0 < cw) :
    (s.ballInPlay = true → 10 < s.ballX + s.dx →
        (SP.updateBall r s).scorePlayer = s.scorePlayer + 1
        ∧ (SP.updateBall r s).scoreAi = s.scoreAi
        ∧ (SP.updateBall r s).ballInPlay = false
        ∧ (SP.updateBall r s).dx = 0 ∧ (SP.updateBall r s).dz = 0
        ∧ (SP.updateBall r s).ballX = -8)
    ∧ (s.ballInPlay = true → s.ballX + s.dx < -10 →
        (SP.updateBall r s).scoreAi = s.scoreAi + 1
        ∧ (SP.updateBall r s).scorePlayer = s.scorePlayer
        ∧ (SP.updateBall r s).ballInPlay = false
        ∧ (SP.updateBall r s).dx = 0 ∧ (SP.updateBall r s).dz = 0)
    ∧ (w.ball.x < 0 →
        (NET.checkCollisions cw ch rdy w).rightScore = w.rightScore + 1
        ∧ (NET.checkCollisions cw ch rdy w).leftScore = w.leftScore
        ∧ (NET.checkCollisions cw ch rdy w).ball.x = cw/2
        ∧ (NET.checkCollisions cw ch rdy w).ball.y = ch/2
        ∧ (NET.checkCollisions cw ch rdy w).ball.dx = w.ball.speed
        ∧ (NET.checkCollisions cw ch rdy w).ball.dy
            = w.ball.speed * (if rdy then 1 else -1))
    ∧ (cw < w.ball.x →
        (NET.checkCollisions cw ch rdy w).leftScore = w.leftScore + 1
        ∧ (NET.checkCollisions cw ch rdy w).rightScore = w.rightScore
        ∧ (NET.checkCollisions cw ch rdy w).ball.x = cw/2
        ∧ (NET.checkCollisions cw ch rdy w).ball.dx = -w.ball.speed) := by
  refine ⟨?_, ?_, ?_, ?_⟩
  · intro hb hx
    simp [SP.updateBall, SP.resetBall, hb, hx]
  · intro hb hx
    have hx2 : ¬ (10 < s.ballX + s.dx) := by linarith
    simp [SP.updateBall, SP.resetBall, hb, hx, hx2]
  · intro hx
    simp [NET.checkCollisions, NET.resetBall, hx]
  · intro hx
    have hx0 : ¬ (w.ball.x < 0) := by linarith
    simp [NET.checkCollisions, NET.resetBall, hx, hx0]

/-- C3, witness for the amended theorem at concrete states. -/
theorem C3_scoring_witness :
    (SP.updateBall 0 { spw with ballX := 11 }).scorePlayer = 1
    ∧ (NET.checkCollisions 800 600 true c3w).leftScore = 0 := by
  have h := C3_scoring 0 800 600 true { spw with ballX := 11 } c3w (by norm_num)
  constructor
  · have hc := (h.1 rfl (by norm_num [spw])).1
    simpa [spw] using hc
  · have hc := (h.2.2.1 (by norm_num [c3w])).2.1
    simpa [c3w] using hc

/-- C4, counterexample: in the single-player variant the collision test
does not check the ball direction, so a valid hitbox collision with the
ball already moving away from the player paddle does not flip the sign of
the longitudinal velocity: from dx = 0.2 inside the hitbox band the update
gives dx = 0.206, still positive. -/
theorem C4_no_sign_flip :
    0 < c4s.dx
    ∧ (SP.updateBall 0 c4s).dx = 103/500
    ∧ 0 < (SP.updateBall 0 c4s).dx := by
  refine ⟨by norm_num [c4s], ?_, ?_⟩ <;>
    norm_num [SP.updateBall, SP.resetBall, SP.paddleHitbox, SP.normX, SP.maxSpeed,
      SP.minSpeed, Tennis.jsign, c4s, abs_of_nonneg]

/-- C4, amended: a hitbox collision with the ball moving toward the paddle
flips the longitudinal velocity away from the paddle and strictly grows its
magnitude unless the cap already binds: the single-player player-paddle hit
yields dx = min(1.03 |dx|, 0.35), and the networked left-paddle hit (whose
test itself requires inbound motion) yields dx = -dx scaled by 1.05 while
the magnitude is below 15.  When the ball is already moving away, the
single-player hit does not flip the sign (see the counterexample). -/
theorem C4_hit_reflection (r cw ch : ℚ) (rdy : Bool) (s : SP.GState) (w : NET.World)
    (h1 : s.ballInPlay = true)
    (h2 : s.ballX + s.dx ≤ -(88/10)) (h3 : -(92/10) ≤ s.ballX + s.dx)
    (h4 : |s.ballZ + s.dz - s.paddle1Z| < 8/10)
    (h5 : s.dx < 0) (h6 : 15/100 ≤ |s.dx|) (h7 : |s.dx| ≤ 35/100)
    (n1 : w.ball.x ≤ w.lpX + 15) (n2 : w.lpY ≤ w.ball.y + 15) (n3 : w.ball.y ≤ w.lpY + 100)
    (n4 : w.ball.dx < 0) (n5 : w.ball.x + 15 < w.rpX)
    (n6 : 0 ≤ w.ball.x) (n7 : w.ball.x ≤ cw) :
    ((SP.updateBall r s).dx = min (-s.dx * (103/100)) (35/100)
      ∧ 0 < (SP.updateBall r s).dx
      ∧ |s.dx| ≤ |(SP.updateBall r s).dx|
      ∧ (|s.dx| < 35/100 → |s.dx| < |(SP.updateBall r s).dx|))
    ∧ ((NET.checkCollisions cw ch rdy w).ball.dx
          = (if |(-w.ball.dx)| < 15 then -w.ball.dx * (105/100) else -w.ball.dx)
      ∧ 0 < (NET.checkCollisions cw ch rdy w).ball.dx
      ∧ |w.ball.dx| ≤ |(NET.checkCollisions cw ch rdy w).ball.dx|
      ∧ (|w.ball.dx| < 15 → |w.ball.dx| < |(NET.checkCollisions cw ch rdy w).ball.dx|)) := by
  have habs : |s.dx| = -s.dx := abs_of_neg h5
  constructor
  · have key : (SP.updateBall r s).dx = SP.normX (|s.dx| * (103/100)) := by
      have hPL : s.ballX + s.dx ≤ -(88/10) ∧ -(92/10) ≤ s.ballX + s.dx
          ∧ |s.ballZ + s.dz - s.paddle1Z| < 8/10 := ⟨h2, h3, h4⟩
      have hAI : ¬ (88/10 ≤ s.ballX + s.dx) := by linarith
      have hq1 : ¬ (10 < s.ballX + s.dx) := by linarith
      have hq2 : ¬ (s.ballX + s.dx < -10) := by linarith
      simp [SP.updateBall, SP.paddleHitbox, h1, hPL, hAI, hq1, hq2]
    have hmin : 15/100 ≤ |s.dx| * (103/100) := by nlinarith
    rw [key, normX_of_pos _ hmin, habs]
    have hpos : 0 < -s.dx * (103/100) := by nlinarith
    have hminpos : 0 < min (-s.dx * (103/100)) (35/100) :=
      lt_min hpos (by norm_num)
    refine ⟨rfl, hminpos, ?_, ?_⟩
    · rw [abs_of_pos hminpos]
      exact le_min (by nlinarith) (by linarith [habs ▸ h7])
    · intro hlt
      rw [abs_of_pos hminpos]
      exact lt_min (by nlinarith) hlt
  · have hL : w.ball.x ≤ w.lpX + 15 ∧ w.lpY ≤ w.ball.y + 15
        ∧ w.ball.y ≤ w.lpY + 100 ∧ w.ball.dx < 0 := ⟨n1, n2, n3, n4⟩
    have hR : ¬ (w.rpX ≤ w.ball.x + 15) := by linarith
    have hx0 : ¬ (w.ball.x < 0) := by linarith
    have hxc : ¬ (cw < w.ball.x) := by linarith
    have keyN : (NET.checkCollisions cw ch rdy w).ball.dx
        = (if |(-w.ball.dx)| < 15 then -w.ball.dx * (105/100) else -w.ball.dx) := by
      simp [NET.checkCollisions, NET.paddleWidth, NET.paddleHeight, NET.ballSize,
        hL, hR, hx0, hxc]
    have hnabs : |(-w.ball.dx)| = |w.ball.dx| := abs_neg _
    have habsn : |w.ball.dx| = -w.ball.dx := abs_of_neg n4
    rcases lt_or_le |(-w.ball.dx)| 15 with hlt | hge
    · rw [keyN, if_pos hlt]
      have hpos : 0 < -w.ball.dx * (105/100) := by nlinarith
      refine ⟨rfl, hpos, ?_, ?_⟩
      · rw [abs_of_pos hpos]
        nlinarith [abs_nonneg w.ball.dx]
      · intro h15
        rw [abs_of_pos hpos, habsn]
        nlinarith
    · rw [keyN, if_neg (not_lt.mpr hge)]
      refine ⟨rfl, by linarith, ?_, ?_⟩
      · rw [← hnabs]
      · intro h15
        rw [hnabs] at hge
        linarith

/-- C4, witness for the amended theorem at concrete states. -/
theorem C4_hit_reflection_witness :
    (SP.updateBall 0 c4wSP).dx = 103/500
    ∧ (NET.checkCollisions 800 600 true c4wN).ball.dx = 21/4 := by
  have h := C4_hit_reflection 0 800 600 true c4wSP c4wN rfl
    (by norm_num [c4wSP]) (by norm_num [c4wSP]) (by norm_num [c4wSP])
    (by norm_num [c4wSP]) (by norm_num [c4wSP, abs_of_nonneg])
    (by norm_num [c4wSP, abs_of_nonneg])
    (by norm_num [c4wN]) (by norm_num [c4wN]) (by norm_num [c4wN])
    (by norm_num [c4wN]) (by norm_num [c4wN]) (by norm_num [c4wN]) (by norm_num [c4wN])
  constructor
  · have hc := h.1.1
    rw [hc]
    norm_num [c4wSP, min_def]
  · have hc := h.2.1
    rw [hc]
    norm_num [c4wN]

/-- C5, counterexample: the networked wall bounce has no damping and no
random perturbation: on a wall contact with dy = -5 the update gives
dy = 5, the same magnitude. -/
theorem C5_net_no_damping :
    (NET.checkCollisions 800 600 true c5w).ball.dy = 5
    ∧ c5w.ball.dy = -5
    ∧ ¬ (|(5:ℚ)| < |(-5:ℚ)|) := by
  refine ⟨?_, rfl, by norm_num⟩
  rw [checkCollisions_wall_only 800 600 true c5w (by norm_num [c5w]) (by norm_num [c5w])
    (by norm_num [c5w]) (by norm_num [c5w]) (by norm_num [c5w])]
  norm_num [c5w]

/-- C5, amended: the single-player wall bounce behaves as the claim says
(the reflected term -0.9 dz flips the sign and strictly shrinks the
magnitude, and the bounded random perturbation is added after that damped
reflection, before the transverse cap and drag); the networked wall bounce
only flips the sign, with no damping and no perturbation. -/
theorem C5_wall_bounce (r cw ch : ℚ) (rdy : Bool) (s : SP.GState) (w : NET.World)
    (h1 : s.ballInPlay = true)
    (h2 : 5 < s.ballZ + s.dz ∨ s.ballZ + s.dz < -5)
    (h3 : -(88/10) < s.ballX + s.dx) (h4 : s.ballX + s.dx < 88/10)
    (h5 : s.dz ≠ 0)
    (n1 : w.ball.y ≤ 0 ∨ ch ≤ w.ball.y + 15)
    (n2 : w.lpX + 15 < w.ball.x) (n3 : w.ball.x + 15 < w.rpX)
    (n4 : 0 ≤ w.ball.x) (n5 : w.ball.x ≤ cw) :
    ((SP.updateBall r s).dz
        = SP.normZ (-s.dz * (9/10) + (r - 1/2) * (5/100)) * (98/100)
      ∧ jsign (-s.dz * (9/10)) = -jsign s.dz
      ∧ |(-s.dz) * (9/10)| < |s.dz|)
    ∧ ((NET.checkCollisions cw ch rdy w).ball.dy = -w.ball.dy) := by
  refine ⟨⟨?_, ?_, ?_⟩, ?_⟩
  · have hPL : ¬ (s.ballX + s.dx ≤ -(88/10)) := by linarith
    have hAI : ¬ (88/10 ≤ s.ballX + s.dx) := by linarith
    have hq1 : ¬ (10 < s.ballX + s.dx) := by linarith
    have hq2 : ¬ (s.ballX + s.dx < -10) := by linarith
    simp [SP.updateBall, SP.paddleHitbox, h1, h2, hPL, hAI, hq1, hq2]
  · unfold jsign
    rcases lt_trichotomy 0 s.dz with hz | hz | hz
    · rw [if_neg (by nlinarith), if_pos (by nlinarith), if_pos hz]
    · exact absurd hz.symm h5
    · rw [if_pos (by nlinarith), if_neg (by linarith), if_pos hz]
      norm_num
  · rw [abs_mul, abs_neg]
    have h0 : 0 < |s.dz| := abs_pos.mpr h5
    rw [abs_of_nonneg (by norm_num : (0:ℚ) ≤ 9/10)]
    nlinarith
  · rw [checkCollisions_wall_only cw ch rdy w n1 n2 n3 n4 n5]

/-- C5, witness for the amended theorem at concrete states. -/
theorem C5_wall_bounce_witness :
    (SP.updateBall (1/2) c5wSP).dz = -(441/5000)
    ∧ (NET.checkCollisions 800 600 true c5w).ball.dy = -c5w.ball.dy := by
  have h := C5_wall_bounce (1/2) 800 600 true c5wSP c5w rfl
    (by norm_num [c5wSP]) (by norm_num [c5wSP]) (by norm_num [c5wSP]) (by norm_num [c5wSP])
    (by norm_num [c5w]) (by norm_num [c5w]) (by norm_num [c5w]) (by norm_num [c5w])
    (by norm_num [c5w])
  refine ⟨?_, h.2⟩
  rw [h.1.1]
  norm_num [SP.normZ, SP.maxSpeed, Tennis.jsign, c5wSP, abs_of_nonneg]

/-- C6: whenever the ball moves toward the AI side (positive longitudinal
speed), the raw AI target fed into the exponential smoothing equals the
clamp formula of the spec, clamp(ballLateral + transverseVelocity *
(longitudinalDistance / longitudinalSpeed), -4, 4) with the distance
measured from the AI paddle at x = 9. -/
theorem C6_ai_predictor (ml mr sp : Bool) (r : ℚ) (s : SP.GState)
    (h1 : s.ballInPlay = true) (h2 : 0 < s.dx) :
    (SP.updatePaddles ml mr sp r s).lastAiTarget
      = s.lastAiTarget * (8/10) + SP.aiPredictorSpec s.ballZ s.dz s.ballX s.dx * (2/10) := by
  unfold SP.updatePaddles SP.launchBall SP.aiTargetCalc SP.aiPredictorSpec Tennis.clampQ
  simp only [h1, if_pos h2]
  split_ifs <;> simp_all

/-- C6, witness at a concrete state with the ball moving toward the AI. -/
theorem C6_ai_predictor_witness :
    (SP.updatePaddles false false false 0 spw).lastAiTarget = 0 := by
  have h := C6_ai_predictor false false false 0 spw rfl (by norm_num [spw])
  rw [h]
  norm_num [spw, SP.aiPredictorSpec, Tennis.clampQ]

/-- With the direct-channel preference flag cleared, every preferred-send
site emits on the relayed socket. -/
theorem viaPreferred_socket (s : CLIENT.Client) (m : CLIENT.Msg)
    (h : s.useWebRTC = false) :
    CLIENT.viaPreferred s m = [(CLIENT.Channel.socket, m)] := by
  simp [CLIENT.viaPreferred, h]

/-- No event handler of the networked client ever sets the direct-channel
preference flag back to true. -/
theorem step_useWebRTC_mono (cw ch : ℚ) (e : CLIENT.Event) (s : CLIENT.Client) :
    (CLIENT.step cw ch e s).1.useWebRTC = true → s.useWebRTC = true := by
  cases e
  case peerData m =>
    cases m <;> simp [CLIENT.step, CLIENT.handleWebRTCMessage, CLIENT.sendRTC] <;>
      split_ifs <;> simp_all
  all_goals
    (simp [CLIENT.step, CLIENT.frameUpdate, CLIENT.endGame, CLIENT.backToMenu,
       CLIENT.cleanupPeer, CLIENT.startGame, CLIENT.handleKeyDown, CLIENT.handleKeyUp,
       CLIENT.viaPreferred, CLIENT.sendRTC] <;>
     split_ifs <;> simp_all)

/-- C7, counterexample: a ball-state message arriving over the relayed
channel is not applied verbatim by the non-host when the direct channel is
in use: the handler drops it and the local ball keeps its old value. -/
theorem C7_socket_ball_dropped :
    (CLIENT.step 800 600 (CLIENT.Event.ballUpdateSocket b7 7 3) c7c).1.world.ball
      = netw.ball
    ∧ netw.ball ≠ b7 := by
  constructor
  · simp [CLIENT.step, c7c]
  · simp [netw, b7]

/-- C7, amended: only the host runs the ball simulation (a non-host frame
never changes the ball); a direct-channel ball message is applied verbatim
by the non-host and ignored by the host; a relayed ball message is applied
verbatim by the non-host only while the direct channel is not in use
(useWebRTC false or peer not connected) and is ignored by the host. -/
theorem C7_host_authority (cw ch : ℚ) (rdir : Bool) (b : NET.Ball) (ls rs : ℕ)
    (s : CLIENT.Client) :
    (s.isHost = false →
        (CLIENT.step cw ch (CLIENT.Event.frame rdir) s).1.world.ball = s.world.ball
        ∧ (CLIENT.step cw ch
            (CLIENT.Event.peerData (CLIENT.Msg.ballUpdate b ls rs)) s).1.world.ball = b
        ∧ (CLIENT.step cw ch
            (CLIENT.Event.peerData (CLIENT.Msg.ballUpdate b ls rs)) s).1.world.leftScore = ls
        ∧ (CLIENT.step cw ch
            (CLIENT.Event.peerData (CLIENT.Msg.ballUpdate b ls rs)) s).1.world.rightScore = rs
        ∧ (¬ (s.useWebRTC = true ∧ s.peerConnected = true) →
            (CLIENT.step cw ch (CLIENT.Event.ballUpdateSocket b ls rs) s).1.world.ball = b))
    ∧ (s.isHost = true →
        (CLIENT.step cw ch (CLIENT.Event.peerData (CLIENT.Msg.ballUpdate b ls rs)) s).1 = s
        ∧ (CLIENT.step cw ch (CLIENT.Event.ballUpdateSocket b ls rs) s).1 = s) := by
  constructor
  · intro hh
    refine ⟨?_, ?_, ?_, ?_, ?_⟩
    · simp only [CLIENT.step, CLIENT.frameUpdate, CLIENT.endGame]
      split_ifs <;> simp_all [NET.movePaddles]
    · simp [CLIENT.step, CLIENT.handleWebRTCMessage, hh]
    · simp [CLIENT.step, CLIENT.handleWebRTCMessage, hh]
    · simp [CLIENT.step, CLIENT.handleWebRTCMessage, hh]
    · intro hng
      simp [CLIENT.step, hh, hng]
  · intro hh
    constructor
    · simp [CLIENT.step, CLIENT.handleWebRTCMessage, hh]
    · simp only [CLIENT.step]
      split_ifs <;> simp_all
/-- C7, witness for the amended theorem at concrete states. -/
theorem C7_host_authority_witness :
    (CLIENT.step 800 600
        (CLIENT.Event.peerData (CLIENT.Msg.ballUpdate b7 2 3)) c7c).1.world.ball = b7
    ∧ (CLIENT.step 800 600 (CLIENT.Event.ballUpdateSocket b7 2 3) c8w).1 = c8w := by
  constructor
  · exact ((C7_host_authority 800 600 true b7 2 3 c7c).1 rfl).2.1
  · exact ((C7_host_authority 800 600 true b7 2 3 c8w).2 rfl).2

/-- C8, counterexample: after the fallback flag is cleared by a signaling
error the peer link can still be connected, and then the host answers a
direct-channel ball-state request over the direct channel: a state message
flows outside the relayed path after fallback. -/
theorem C8_rtc_reply_bypasses_fallback :
    c8c.useWebRTC = false
    ∧ (CLIENT.step 800 600 (CLIENT.Event.peerData CLIENT.Msg.requestBallUpdate) c8c).2
        = [(CLIENT.Channel.webrtc, CLIENT.Msg.ballUpdate netw.ball 0 0)] := by
  constructor
  · rfl
  · simp [CLIENT.step, CLIENT.handleWebRTCMessage, CLIENT.sendRTC, c8c, netw]

/-- C8, amended: the fallback is permanent in the sense that no handler
ever sets the direct-channel preference flag back to true, a direct-channel
error or close clears it while the session stays Active (the screen and
gameActive are untouched), and once it is cleared every per-frame broadcast
leaves on the relayed socket; however, a host reply to a direct-channel
ball-state request still uses the direct channel whenever the peer link is
connected (see the counterexample). -/
theorem C8_fallback_permanent (cw ch : ℚ) (rdir : Bool) (e : CLIENT.Event)
    (s : CLIENT.Client) :
    ((CLIENT.step cw ch e s).1.useWebRTC = true → s.useWebRTC = true)
    ∧ ((CLIENT.step cw ch CLIENT.Event.peerError s).1.useWebRTC = false
        ∧ (CLIENT.step cw ch CLIENT.Event.peerError s).1.gameActive = s.gameActive
        ∧ (CLIENT.step cw ch CLIENT.Event.peerError s).1.screen = s.screen)
    ∧ ((CLIENT.step cw ch CLIENT.Event.peerClose s).1.useWebRTC = false
        ∧ (CLIENT.step cw ch CLIENT.Event.peerClose s).1.gameActive = s.gameActive
        ∧ (CLIENT.step cw ch CLIENT.Event.peerClose s).1.screen = s.screen)
    ∧ (s.useWebRTC = false →
        ∀ p ∈ (CLIENT.step cw ch (CLIENT.Event.frame rdir) s).2,
          p.1 = CLIENT.Channel.socket) := by
  refine ⟨step_useWebRTC_mono cw ch e s, ?_, ?_, ?_⟩
  · simp [CLIENT.step]
  · simp [CLIENT.step]
  · intro hw p hp
    simp only [CLIENT.step, CLIENT.frameUpdate, CLIENT.endGame, CLIENT.viaPreferred,
      CLIENT.sendRTC, hw] at hp
    split_ifs at hp <;> aesop

/-- C8, witness for the amended theorem at a concrete state. -/
theorem C8_fallback_permanent_witness :
    ((CLIENT.step 800 600 CLIENT.Event.peerError c8w).1.useWebRTC = false
      ∧ (CLIENT.step 800 600 CLIENT.Event.peerError c8w).1.gameActive = true)
    ∧ ∀ p ∈ (CLIENT.step 800 600 (CLIENT.Event.frame true) c8w).2,
        p.1 = CLIENT.Channel.socket := by
  have h := C8_fallback_permanent 800 600 true CLIENT.Event.peerError c8w
  exact ⟨⟨h.2.1.1, h.2.1.2.1⟩, h.2.2.2 rfl⟩

/-- C9: a peer-left event during an active networked session immediately
deactivates the game, shows the game-over screen with the disconnect
message (not a score-based winner), and releases the direct channel (peer
destroyed and connected flag cleared). -/
theorem C9_disconnect_ends_session (cw ch : ℚ) (s : CLIENT.Client)
    (h1 : s.gameActive = true) (h2 : s.peerExists = true) :
    (CLIENT.step cw ch CLIENT.Event.playerLeft s).1.gameActive = false
    ∧ (CLIENT.step cw ch CLIENT.Event.playerLeft s).1.screen = CLIENT.Screen.over
    ∧ (CLIENT.step cw ch CLIENT.Event.playerLeft s).1.winner = "Opponent left the game"
    ∧ (CLIENT.step cw ch CLIENT.Event.playerLeft s).1.peerExists = false
    ∧ (CLIENT.step cw ch CLIENT.Event.playerLeft s).1.peerConnected = false := by
  simp [CLIENT.step, CLIENT.endGame, CLIENT.cleanupPeer, h1, h2]

/-- C9, witness at a concrete active session. -/
theorem C9_disconnect_ends_session_witness :
    (CLIENT.step 800 600 CLIENT.Event.playerLeft c7c).1.gameActive = false
    ∧ (CLIENT.step 800 600 CLIENT.Event.playerLeft c7c).1.winner
        = "Opponent left the game" := by
  have h := C9_disconnect_ends_session 800 600 c7c rfl rfl
  exact ⟨h.1, h.2.2.1⟩

/-- C10: in the single-player variant the player always serves.  After a
point on either side the ball is reset out of play at x = -8 with zero
velocity at the lateral coordinate of the player paddle; while out of play
the paddle update keeps the ball pinned to the player paddle; and the serve
always launches with the fixed positive longitudinal speed 0.2 toward the
AI side. -/
theorem C10_player_always_serves (ml mr sp : Bool) (r : ℚ) (s : SP.GState) :
    (s.ballInPlay = true → 10 < s.ballX + s.dx →
        (SP.updateBall r s).ballInPlay = false
        ∧ (SP.updateBall r s).ballX = -8
        ∧ (SP.updateBall r s).ballZ = s.paddle1Z
        ∧ (SP.updateBall r s).dx = 0 ∧ (SP.updateBall r s).dz = 0
        ∧ (SP.updateBall r s).scorePlayer = s.scorePlayer + 1)
    ∧ (s.ballInPlay = true → s.ballX + s.dx < -10 →
        (SP.updateBall r s).ballInPlay = false
        ∧ (SP.updateBall r s).ballX = -8
        ∧ (SP.updateBall r s).ballZ = s.paddle1Z
        ∧ (SP.updateBall r s).dx = 0 ∧ (SP.updateBall r s).dz = 0
        ∧ (SP.updateBall r s).scoreAi = s.scoreAi + 1)
    ∧ (s.ballInPlay = false →
        (SP.launchBall r s).dx = 1/5 ∧ (0:ℚ) < 1/5
        ∧ (SP.launchBall r s).ballInPlay = true)
    ∧ (s.ballInPlay = false →
        (SP.updatePaddles ml mr sp r s).ballZ = (SP.updatePaddles ml mr sp r s).paddle1Z) := by
  refine ⟨?_, ?_, ?_, ?_⟩
  · intro h1 h2
    simp [SP.updateBall, SP.resetBall, h1, h2]
  · intro h1 h2
    have hx : ¬ (10 < s.ballX + s.dx) := by linarith
    simp [SP.updateBall, SP.resetBall, h1, h2, hx]
  · intro h1
    simp [SP.launchBall, h1]
    norm_num
  · intro h1
    unfold SP.updatePaddles SP.launchBall
    simp only [h1]
    split_ifs <;> simp_all

/-- C10, witness: a point at the far boundary resets to serve-pending, and
the serve from a serve-pending state launches at 0.2 toward the AI. -/
theorem C10_player_always_serves_witness :
    ((SP.updateBall 0 { spw with ballX := 11 }).ballInPlay = false
      ∧ (SP.updateBall 0 { spw with ballX := 11 }).dx = 0)
    ∧ (SP.launchBall (1/2) sps).dx = 1/5 := by
  have h1 := (C10_player_always_serves false false false 0 { spw with ballX := 11 }).1
    rfl (by norm_num [spw])
  have h2 := (C10_player_always_serves false false false (1/2) sps).2.2.1 rfl
  exact ⟨⟨h1.1, h1.2.2.2.1⟩, h2.1⟩

end Tennis
